import Mathlib

/-!
Shallow embedding of the nobsrom ROM launcher (src/nobsrom/main.py) and
verification of the frozen claims about its navigation/view-state engine.

The embedding mirrors the Python source: the mutable `EmulatorLauncher`
object becomes an explicit `Session` record, Python dicts become ordered
association lists (insertion-ordered, unique keys), Python list indexing
becomes `pyGet` (negative indices wrap once, out-of-range raises), and
raising paths return `Except.error`.  Rendering calls (`draw_*`) and the
synchronous `save_favorites`/`save_config` writes are external I/O with no
effect on the modelled state and are omitted; `subprocess.Popen` is
modelled by an environment function `SpawnEnv` answering each spawn
attempt.
-/

namespace Nobsrom

/-- `view_mode`: one of the strings "systems" / "all" / "favorites". -/
inductive ViewMode where
  | systems
  | all
  | favorites
deriving DecidableEq, Repr

/-- `focus`: the string "systems" or "roms". -/
inductive Focus where
  | systems
  | roms
deriving DecidableEq, Repr

/-- `mode`: the string "navigate" or "filter". -/
inductive Mode where
  | navigate
  | filter
deriving DecidableEq, Repr

/-- An entry of a `filtered_roms` dict value: in "systems" view the lists
hold bare path strings, in "all"/"favorites" view they hold
`(system, path)` tuples.  This mirrors the dynamic typing of the source. -/
inductive RomData where
  | single (path : String)
  | pair (system : String) (path : String)
deriving DecidableEq, Repr

/-- One entry of `config["systems"]`: the launch configuration of a system. -/
structure SystemConfig where
  emulator_path : String
  launch_arguments : String
  start_in : Option String
deriving DecidableEq, Repr

/-- Result of a `subprocess.Popen` attempt, as seen by `launch_rom`'s
`try`/`except` clauses: success with a handle, the two exception types the
source catches, or any other OS-level error (uncaught by the source). -/
inductive SpawnOutcome where
  | ok (handle : Nat)
  | fileNotFound
  | calledProcessError
  | osError (msg : String)
deriving DecidableEq, Repr

/-- The process-spawning environment: what `Popen` does for a given
command list and working directory. -/
abbrev SpawnEnv := List String → Option String → SpawnOutcome

/-! ## Python dict / list primitives

Python 3 dicts preserve insertion order and have unique keys; we model
them as association lists.  `dlookup` is `d.get(k)` / `d[k]`, `dset` is
`d[k] = v` (updates in place when the key exists, appends otherwise),
`ddel` is `del d[k]`. -/

/-- `d.get(k)`: first value stored under key `k`. -/
def dlookup {α : Type} (d : List (String × α)) (k : String) : Option α :=
  match d with
  | [] => none
  | (k', v) :: rest => if k' = k then some v else dlookup rest k

/-- `d[k] = v`: replace the value at `k` in place, or append a new entry. -/
def dset {α : Type} (d : List (String × α)) (k : String) (v : α) :
    List (String × α) :=
  match d with
  | [] => [(k, v)]
  | (k', v') :: rest =>
      if k' = k then (k', v) :: rest else (k', v') :: dset rest k v

/-- `del d[k]`: drop the (unique) entry stored under `k`. -/
def ddel {α : Type} (d : List (String × α)) (k : String) :
    List (String × α) :=
  match d with
  | [] => []
  | (k', v') :: rest =>
      if k' = k then rest else (k', v') :: ddel rest k

/-- Python `lst[i]`: a negative index wraps once from the end; an index
outside `[-len, len)` raises `IndexError` (here: `none`). -/
def pyGet {α : Type} (l : List α) (i : Int) : Option α :=
  if 0 ≤ i then l.get? i.toNat
  else if 0 ≤ i + l.length then l.get? (i + l.length).toNat
  else none

/-- Python `needle in hay` on lists (contiguous-sublist containment). -/
def listContains {α : Type} [DecidableEq α] : List α → List α → Bool
  | needle, [] => needle.isEmpty
  | needle, a :: t =>
      needle.isPrefixOf (a :: t) || listContains needle t

/-- Python `needle in hay` for strings: substring containment. -/
def strIn (needle hay : String) : Bool :=
  listContains needle.toList hay.toList

/-- `os.path.basename`: the part after the last "/". -/
def basename (p : String) : String :=
  ((p.splitOn "/").getLast?).getD ""

end Nobsrom


namespace Nobsrom

/-! ## Session state

The fields of `EmulatorLauncher` that carry navigation/view state
(`__init__`, main.py lines 59-90).  Counters and window handles that only
feed rendering (`total_roms`, `current_rom_index`, `system_window`, ...)
and the controller timer dicts (modelled separately by `HatTimer`) are
omitted. -/
structure Session where
  config : List (String × SystemConfig)
  roms : List (String × List String)
  all_roms : List (String × String)
  favorites : List (String × List String)
  selected_system : Int
  selected_rom : Int
  emulator_process : Option Nat
  focus : Focus
  filter_string : String
  filtered_roms : List (String × List RomData)
  mode : Mode
  view_mode : ViewMode
  last_selection_change_time : ℚ
deriving DecidableEq, Repr

/-- main.py line 85: `self.view_mode = "favorites" if self.favorites else
"systems"` (an empty dict is falsy). -/
def init_view_mode (favorites : List (String × List String)) : ViewMode :=
  if favorites ≠ [] then ViewMode.favorites else ViewMode.systems

/-- `get_favorite_roms_with_system` (lines 576-592): flatten the favorites
dict into `(system, rom)` tuples in system-then-insertion order. -/
def get_favorite_roms_with_system (favorites : List (String × List String)) :
    List (String × String) :=
  favorites.flatMap (fun pr => pr.2.map (fun rom => (pr.1, rom)))

/-- Does a rom name match the current filter (case-insensitive substring
test on the basename, lines 560/566/573)? -/
def filterMatch (filter_string rom : String) : Bool :=
  strIn filter_string.toLower (basename rom).toLower

/-- `update_filtered_roms` (lines 525-574): rebuild the `filtered_roms`
dict for the current view mode from the filter string. -/
def update_filtered_roms (s : Session) : Session :=
  if s.filter_string = "" then
    match s.view_mode with
    | ViewMode.systems =>
        { s with filtered_roms :=
            s.roms.map (fun pr => (pr.1, pr.2.map RomData.single)) }
    | ViewMode.all =>
        { s with filtered_roms :=
            [("all", s.all_roms.map (fun pr => RomData.pair pr.1 pr.2))] }
    | ViewMode.favorites =>
        { s with filtered_roms :=
            [("favorites",
              (get_favorite_roms_with_system s.favorites).map
                (fun pr => RomData.pair pr.1 pr.2))] }
  else
    match s.view_mode with
    | ViewMode.systems =>
        { s with filtered_roms :=
            s.roms.map (fun pr =>
              (pr.1, (pr.2.filter
                (fun rom => filterMatch s.filter_string rom)).map
                  RomData.single)) }
    | ViewMode.all =>
        { s with filtered_roms :=
            [("all", (s.all_roms.filter
                (fun pr => filterMatch s.filter_string pr.2)).map
                  (fun pr => RomData.pair pr.1 pr.2))] }
    | ViewMode.favorites =>
        { s with filtered_roms :=
            [("favorites",
              ((get_favorite_roms_with_system s.favorites).filter
                (fun pr => filterMatch s.filter_string pr.2)).map
                  (fun pr => RomData.pair pr.1 pr.2))] }

/-! ## Favorite toggling -/

/-- The favorites-dict mutation of `toggle_favorite_by_system_and_path`
(lines 677-685): ensure the key, then remove (pruning an emptied key) or
append. -/
def toggle_favorite_map (fav : List (String × List String))
    (system rom_path : String) : List (String × List String) :=
  let fav := if (dlookup fav system).isNone then dset fav system [] else fav
  let cur := (dlookup fav system).getD []
  if rom_path ∈ cur then
    let cur := cur.erase rom_path
    if cur = [] then ddel fav system else dset fav system cur
  else
    dset fav system (cur ++ [rom_path])

/-- The inline favorites mutation of `toggle_favorite`'s "systems" branch
(lines 626-635): same toggle, but the empty-list pruning check runs after
the if/else instead of inside the removal branch. -/
def toggle_favorite_inline (fav : List (String × List String))
    (system rom_path : String) : List (String × List String) :=
  let fav := if (dlookup fav system).isNone then dset fav system [] else fav
  let cur := (dlookup fav system).getD []
  let fav :=
    if rom_path ∈ cur then dset fav system (cur.erase rom_path)
    else dset fav system (cur ++ [rom_path])
  if (dlookup fav system).getD [] = [] then ddel fav system else fav

/-- `toggle_favorite_by_system_and_path` (lines 666-689): mutate the
favorites dict, persist it (external write, no modelled effect), rebuild
the filtered lists and redraw (no modelled effect). -/
def toggle_favorite_by_system_and_path (s : Session)
    (system rom_path : String) : Session :=
  update_filtered_roms
    { s with favorites := toggle_favorite_map s.favorites system rom_path }

/-- The mutation half of `toggle_favorite` (lines 616-649): resolve the
item at the stored index in the current view's visible list and toggle its
favorite status.  `Except.error` marks the raising paths: the unguarded
`[current_rom_index]` subscripts of the "all"/"favorites" branches (lines
639, 645) and of the "systems" branch (lines 621, 624). -/
def toggle_favorite_mutate (s : Session) : Except String Session :=
  match s.view_mode with
  | ViewMode.systems =>
      if s.roms.map Prod.fst ≠ [] then
        match pyGet (s.roms.map Prod.fst) s.selected_system with
        | none => Except.error "IndexError"
        | some selected_system_name =>
            if (dlookup s.filtered_roms selected_system_name).getD [] ≠ [] then
              match pyGet ((dlookup s.filtered_roms selected_system_name).getD [])
                  s.selected_rom with
              | none => Except.error "IndexError"
              | some rd =>
                  match rd with
                  | RomData.single selected_rom_path =>
                      let fav := toggle_favorite_inline s.favorites
                        selected_system_name selected_rom_path
                      Except.ok { s with favorites := fav }
                  | RomData.pair _ _ => Except.error "TypeError"
            else Except.ok s
      else Except.ok s
  | ViewMode.all =>
      match pyGet ((dlookup s.filtered_roms "all").getD []) s.selected_rom with
      | none => Except.error "IndexError"
      | some rd =>
          match rd with
          | RomData.pair system rom_path =>
              Except.ok (toggle_favorite_by_system_and_path s system rom_path)
          | RomData.single _ => Except.error "TypeError"
  | ViewMode.favorites =>
      match pyGet ((dlookup s.filtered_roms "favorites").getD []) s.selected_rom with
      | none => Except.error "IndexError"
      | some rd =>
          match rd with
          | RomData.pair system rom_path =>
              Except.ok (toggle_favorite_by_system_and_path s system rom_path)
          | RomData.single _ => Except.error "TypeError"

/-- The restore half of `toggle_favorite` (lines 651-664): rebuild the
filtered lists, re-derive the visible list (the "systems" arm re-reads the
`systems` key list, unchanged since the mutation never touches
`self.roms`), and clamp `selected_rom` to
`max(min(current_rom_index, len-1), 0)`. -/
def restore_rom_list (s2 : Session) : Except String (List RomData) :=
  match s2.view_mode with
  | ViewMode.systems =>
      match pyGet (s2.roms.map Prod.fst) s2.selected_system with
      | none => Except.error "IndexError"
      | some name => Except.ok ((dlookup s2.filtered_roms name).getD [])
  | ViewMode.all => Except.ok ((dlookup s2.filtered_roms "all").getD [])
  | ViewMode.favorites =>
      Except.ok ((dlookup s2.filtered_roms "favorites").getD [])

def toggle_favorite_restore (current_rom_index : Int) (s1 : Session) :
    Except String Session :=
  match restore_rom_list (update_filtered_roms s1) with
  | Except.error e => Except.error e
  | Except.ok rom_list =>
      let sel := max (min current_rom_index ((rom_list.length : Int) - 1)) 0
      Except.ok { update_filtered_roms s1 with selected_rom := sel }

/-- `toggle_favorite` (lines 594-664): store the index, toggle, then
restore the selection within bounds. -/
def toggle_favorite (s : Session) : Except String Session :=
  match toggle_favorite_mutate s with
  | Except.error e => Except.error e
  | Except.ok s1 => toggle_favorite_restore s.selected_rom s1

end Nobsrom

namespace Nobsrom

/-! ## Launching -/

/-- The command-building part of `launch_rom` (lines 507-513): the
executable, then the whitespace-tokenized argument template with every
`"{rom_path}"` placeholder occurrence substituted. -/
def build_command (emulator_path launch_arguments rom_path : String) :
    List String :=
  let command := [emulator_path]
  if launch_arguments ≠ "" then
    let args := (launch_arguments.split (fun c => c.isWhitespace)).filter
      (fun a => a ≠ "")
    command ++ args.map (fun arg =>
      if strIn "{rom_path}" arg then arg.replace "{rom_path}" rom_path
      else arg)
  else command

/-- `launch_rom` (lines 495-523): build the command and spawn.  On
success `self.emulator_process` is assigned the new handle; the caught
exceptions (`subprocess.CalledProcessError`, `FileNotFoundError`) only
print, leaving `emulator_process` at its prior value `proc`; any other
OS-level error propagates uncaught. -/
def launch_rom (env : SpawnEnv)
    (emulator_path launch_arguments rom_path : String)
    (start_in_directory : Option String) (proc : Option Nat) :
    Except String (Option Nat) :=
  let command := build_command emulator_path launch_arguments rom_path
  match env command start_in_directory with
  | SpawnOutcome.ok handle => Except.ok (some handle)
  | SpawnOutcome.calledProcessError => Except.ok proc
  | SpawnOutcome.fileNotFound => Except.ok proc
  | SpawnOutcome.osError msg => Except.error msg

/-- `launch_selected_rom` (lines 851-902).  `systems` and `rom_list` are
the values computed by `handle_input` and passed in.  When the guard
(focus on roms, no tracked process, non-empty list) fails, the whole body
is skipped. -/
def launch_selected_rom (env : SpawnEnv) (systems : List String)
    (rom_list : List RomData) (s : Session) : Except String Session :=
  if s.focus = Focus.roms ∧ s.emulator_process = none ∧ rom_list ≠ [] then
    let procE : Except String (Option Nat) :=
      match s.view_mode with
      | ViewMode.systems =>
          match pyGet systems s.selected_system with
          | none => Except.error "IndexError"
          | some name =>
              match dlookup s.config name with
              | none => Except.ok s.emulator_process
              | some system_config =>
                  match pyGet rom_list s.selected_rom with
                  | none => Except.error "IndexError"
                  | some rd =>
                      match rd with
                      | RomData.single rom_path =>
                          launch_rom env system_config.emulator_path
                            system_config.launch_arguments rom_path
                            system_config.start_in s.emulator_process
                      | RomData.pair _ _ => Except.error "TypeError"
      | _ =>
          match pyGet rom_list s.selected_rom with
          | none => Except.error "IndexError"
          | some rd =>
              match rd with
              | RomData.pair system rom_path =>
                  match dlookup s.config system with
                  | none => Except.ok s.emulator_process
                  | some system_config =>
                      launch_rom env system_config.emulator_path
                        system_config.launch_arguments rom_path
                        system_config.start_in s.emulator_process
              | RomData.single _ => Except.error "TypeError"
    match procE with
    | Except.error e => Except.error e
    | Except.ok proc =>
        let s1 := { s with emulator_process := proc, mode := Mode.navigate,
                           filter_string := "" }
        let s2 := update_filtered_roms s1
        Except.ok { s2 with selected_rom := 0 }
  else Except.ok s

/-! ## Input handling -/

/-- The `rom_list` resolution at the top of `handle_input`
(lines 739-746): the visible list of the current view. -/
def nav_rom_list (s : Session) : Except String (List RomData) :=
  match s.view_mode with
  | ViewMode.systems =>
      let systems := s.roms.map Prod.fst
      if systems ≠ [] then
        match pyGet systems s.selected_system with
        | none => Except.error "IndexError"
        | some name => Except.ok ((dlookup s.filtered_roms name).getD [])
      else Except.ok []
  | ViewMode.all => Except.ok ((dlookup s.filtered_roms "all").getD [])
  | ViewMode.favorites =>
      Except.ok ((dlookup s.filtered_roms "favorites").getD [])

/-- The selection-change bookkeeping at the end of `handle_input`
(lines 840-845): stamp the time when the selection moved. -/
def apply_selection_timestamp (now : ℚ) (prev_rom : Int)
    (prev_view : ViewMode) (prev_sys : Int) (s : Session) : Session :=
  if prev_rom ≠ s.selected_rom ∨ prev_view ≠ s.view_mode ∨
      prev_sys ≠ s.selected_system then
    { s with last_selection_change_time := now }
  else s

/-- Key codes as delivered by curses (`KEY_UP` = 259, `KEY_DOWN` = 258,
`KEY_LEFT` = 260, `KEY_RIGHT` = 261, `KEY_BACKSPACE` = 263,
`KEY_F2` = 266, Enter = 10, Escape = 27, "/" = 47). -/
def KEY_UP : Int := 259
def KEY_DOWN : Int := 258
def KEY_LEFT : Int := 260
def KEY_RIGHT : Int := 261
def KEY_BACKSPACE : Int := 263
def KEY_F2 : Int := 266
def KEY_ENTER : Int := 10
def KEY_ESCAPE : Int := 27
def KEY_SLASH : Int := 47

/-- The key dispatch of `handle_input` (lines 750-837), between the
`rom_list` resolution and the selection-change bookkeeping. -/
def handle_key (env : SpawnEnv) (key : Int) (systems : List String)
    (rom_list : List RomData) (s : Session) : Except String Session :=
  let num_systems : Int := systems.length
  let num_roms : Int := rom_list.length
  if s.mode = Mode.filter then
    if key = 27 then
      let s := { s with mode := Mode.navigate, filter_string := "" }
      let s := update_filtered_roms s
      Except.ok { s with selected_rom := 0 }
    else if key = 10 then
      launch_selected_rom env systems rom_list s
    else if key = 263 ∨ key = 127 ∨ key = 8 then
      if s.filter_string ≠ "" then
        let s := { s with filter_string := s.filter_string.dropRight 1 }
        let s := update_filtered_roms s
        Except.ok { s with selected_rom := 0 }
      else Except.ok s
    else if key = 259 then
      if s.selected_rom > 0 then
        Except.ok { s with selected_rom := s.selected_rom - 1 }
      else Except.ok s
    else if key = 258 then
      if s.selected_rom < num_roms - 1 then
        Except.ok { s with selected_rom := s.selected_rom + 1 }
      else Except.ok s
    else if key = 266 then
      if s.focus = Focus.roms then toggle_favorite s else Except.ok s
    else if 32 ≤ key ∧ key ≤ 126 then
      let s := { s with filter_string :=
        s.filter_string.push (Char.ofNat key.toNat) }
      let s := update_filtered_roms s
      Except.ok { s with selected_rom := 0 }
    else Except.ok s
  else
    if key = 259 then
      if s.focus = Focus.roms ∧ num_roms > 0 then
        Except.ok { s with selected_rom := (s.selected_rom - 1) % num_roms }
      else if s.focus = Focus.systems then
        match s.view_mode with
        | ViewMode.favorites =>
            let s := { s with view_mode := ViewMode.systems,
                              selected_system := num_systems - 1,
                              selected_rom := 0 }
            Except.ok (update_filtered_roms s)
        | ViewMode.all =>
            if num_systems > 0 then
              let s := { s with view_mode := ViewMode.favorites,
                                selected_rom := 0 }
              Except.ok (update_filtered_roms s)
            else Except.ok s
        | ViewMode.systems =>
            if s.selected_system = 0 then
              let s := { s with view_mode := ViewMode.all, selected_rom := 0 }
              Except.ok (update_filtered_roms s)
            else if s.selected_system > 0 then
              Except.ok { s with selected_system := s.selected_system - 1,
                                 selected_rom := 0 }
            else Except.ok s
      else Except.ok s
    else if key = 258 then
      if s.focus = Focus.roms ∧ num_roms > 0 then
        Except.ok { s with selected_rom := (s.selected_rom + 1) % num_roms }
      else if s.focus = Focus.systems then
        match s.view_mode with
        | ViewMode.favorites =>
            let s := { s with view_mode := ViewMode.all, selected_rom := 0 }
            Except.ok (update_filtered_roms s)
        | ViewMode.all =>
            if num_systems > 0 then
              let s := { s with view_mode := ViewMode.systems,
                                selected_system := 0, selected_rom := 0 }
              Except.ok (update_filtered_roms s)
            else Except.ok s
        | ViewMode.systems =>
            if s.selected_system < num_systems - 1 then
              let s := { s with selected_system := s.selected_system + 1,
                                selected_rom := 0 }
              Except.ok (update_filtered_roms s)
            else if s.selected_system = num_systems - 1 then
              let s := { s with view_mode := ViewMode.favorites,
                                selected_rom := 0 }
              Except.ok (update_filtered_roms s)
            else Except.ok s
      else Except.ok s
    else if key = 260 then Except.ok { s with focus := Focus.systems }
    else if key = 261 then Except.ok { s with focus := Focus.roms }
    else if key = 47 then
      let s := { s with mode := Mode.filter, filter_string := "" }
      let s := update_filtered_roms s
      Except.ok { s with selected_rom := 0 }
    else if key = 10 then
      launch_selected_rom env systems rom_list s
    else if key = 266 then
      if s.focus = Focus.roms then toggle_favorite s else Except.ok s
    else Except.ok s

/-- `handle_input` (lines 706-849): resolve the visible list, dispatch the
key, then stamp the selection-change time.  The trailing redraw calls are
external rendering with no modelled effect. -/
def handle_input (env : SpawnEnv) (now : ℚ) (key : Int) (s : Session) :
    Except String Session :=
  match nav_rom_list s with
  | Except.error e => Except.error e
  | Except.ok rom_list =>
      match handle_key env key (s.roms.map Prod.fst) rom_list s with
      | Except.error e => Except.error e
      | Except.ok s' =>
          Except.ok (apply_selection_timestamp now s.selected_rom
            s.view_mode s.selected_system s')

/-- Total wrapper around `handle_input` used to state iterated-input
properties; on a raising input it keeps the state (no such input occurs
under the hypotheses of the theorems that use it). -/
def handle_input_run (env : SpawnEnv) (now : ℚ) (key : Int) (s : Session) :
    Session :=
  match handle_input env now key s with
  | Except.ok s' => s'
  | Except.error _ => s

/-- The visible item list of the current view as the renderer derives it
(`draw_rom_window`, lines 407-416); used to state cursor-bound
properties. -/
def visible_rom_list (s : Session) : List RomData :=
  match s.view_mode with
  | ViewMode.systems =>
      match pyGet (s.roms.map Prod.fst) s.selected_system with
      | some name => (dlookup s.filtered_roms name).getD []
      | none => []
  | ViewMode.all => (dlookup s.filtered_roms "all").getD []
  | ViewMode.favorites => (dlookup s.filtered_roms "favorites").getD []

/-! ## Gamepad auto-repeat (main loop, lines 1068-1134)

All four hat directions and all four axis directions run the same
per-direction timer logic; `hat_step` is that logic for one direction of
one source, with `active` the polled "direction held" condition. -/

/-- The `(first_event_time, last_event_time)` pair of one direction. -/
structure HatTimer where
  first : ℚ
  last : ℚ
deriving DecidableEq, Repr

/-- One polling-loop tick for one direction (e.g. lines 1073-1086 for hat
UP): on neutral→active fire immediately and set both timestamps; while
held fire when `now - first ≥ initial_delay` and `now - last ≥
repeat_interval`, updating `last`; on neutral reset both to 0.  Returns
the new timer and whether a navigation event fired. -/
def hat_step (initial_delay repeat_interval : ℚ) (active : Bool) (now : ℚ)
    (t : HatTimer) : HatTimer × Bool :=
  if active then
    if t.first = 0 then ({ first := now, last := now }, true)
    else if initial_delay ≤ now - t.first ∧ repeat_interval ≤ now - t.last then
      ({ t with last := now }, true)
    else (t, false)
  else ({ first := 0, last := 0 }, false)

/-- Run `hat_step` over a list of `(now, active)` tick samples, counting
fired events. -/
def hat_run (initial_delay repeat_interval : ℚ) :
    HatTimer → List (ℚ × Bool) → ℕ
  | _, [] => 0
  | t, tk :: rest =>
      let r := hat_step initial_delay repeat_interval tk.2 tk.1 t
      (if r.2 then 1 else 0) + hat_run initial_delay repeat_interval r.1 rest

/-- Events fired over a tick schedule starting from the reset timer. -/
def hat_fire_count (initial_delay repeat_interval : ℚ)
    (ticks : List (ℚ × Bool)) : ℕ :=
  hat_run initial_delay repeat_interval { first := 0, last := 0 } ticks

end Nobsrom

deriving instance DecidableEq for Except

namespace Nobsrom

/-! ## Invariant predicates and concrete states used by the theorems -/

/-- Total wrapper around `toggle_favorite`, used to name the post-state of
a toggle that is proved (separately) not to raise. -/
def toggle_favorite_run (s : Session) : Session :=
  match toggle_favorite s with
  | Except.ok s' => s'
  | Except.error _ => s

/-- `(system, path)` is currently favorited (the membership test of
`is_favorite` / of the toggle operations). -/
def favMem (fav : List (String × List String)) (system path : String) :
    Prop :=
  path ∈ (dlookup fav system).getD []

/-- The pruning invariant on the favorites dict: no key maps to an empty
list. -/
def favValuesNonempty (fav : List (String × List String)) : Prop :=
  ∀ pr ∈ fav, pr.2 ≠ ([] : List String)

/-- Well-formedness of a Python dict model: its keys are distinct. -/
def favKeysNodup (fav : List (String × List String)) : Prop :=
  (fav.map Prod.fst).Nodup

/-- No favorites list contains a duplicated path (toggling never creates
duplicates, so every reachable favorites dict satisfies this). -/
def favValuesNodup (fav : List (String × List String)) : Prop :=
  ∀ pr ∈ fav, pr.2.Nodup

instance (fav : List (String × List String)) (system path : String) :
    Decidable (favMem fav system path) := by
  unfold favMem; infer_instance

instance (fav : List (String × List String)) :
    Decidable (favValuesNonempty fav) := by
  unfold favValuesNonempty; infer_instance

instance (fav : List (String × List String)) :
    Decidable (favKeysNodup fav) := by
  unfold favKeysNodup; infer_instance

instance (fav : List (String × List String)) :
    Decidable (favValuesNodup fav) := by
  unfold favValuesNodup; infer_instance

/-- A spawn environment in which every spawn attempt raises
`FileNotFoundError`. -/
def spawnFileNotFound : SpawnEnv := fun _ _ => SpawnOutcome.fileNotFound

/-- A spawn environment in which every spawn attempt raises an OS error
other than the two exception types `launch_rom` catches (for example
`PermissionError`). -/
def spawnPermissionError : SpawnEnv :=
  fun _ _ => SpawnOutcome.osError "PermissionError"

/-- A small session: one configured system ("NES") with two ROMs, empty
favorites, favorites view freshly derived, focus on the rom column. -/
def emptyFavoritesSession : Session := {
  config := [("NES", { emulator_path := "retroarch",
                       launch_arguments := "-L core {rom_path}",
                       start_in := none })]
  roms := [("NES", ["/r/a.nes", "/r/b.nes"])]
  all_roms := [("NES", "/r/a.nes"), ("NES", "/r/b.nes")]
  favorites := []
  selected_system := 0
  selected_rom := 0
  emulator_process := none
  focus := Focus.roms
  filter_string := ""
  filtered_roms := [("favorites", [])]
  mode := Mode.navigate
  view_mode := ViewMode.favorites
  last_selection_change_time := 0 }

/-- Favorites view with the two-favorite dict `{"NES": ["a", "b"]}`. -/
def twoFavoritesSession : Session :=
  { emptyFavoritesSession with
    favorites := [("NES", ["/r/a.nes", "/r/b.nes"])]
    filtered_roms := [("favorites",
      [RomData.pair "NES" "/r/a.nes", RomData.pair "NES" "/r/b.nes"])] }

/-- Favorites view with a single favorited path. -/
def oneFavoriteSession : Session :=
  { emptyFavoritesSession with
    favorites := [("NES", ["/r/a.nes"])]
    filtered_roms := [("favorites", [RomData.pair "NES" "/r/a.nes"])] }

/-- Favorites view with a 5-item favorited list and the cursor on the last
item (index 4). -/
def fiveFavoritesSession : Session :=
  { emptyFavoritesSession with
    favorites := [("NES", ["a", "b", "c", "d", "e"])]
    selected_rom := 4
    filtered_roms := [("favorites",
      [RomData.pair "NES" "a", RomData.pair "NES" "b",
       RomData.pair "NES" "c", RomData.pair "NES" "d",
       RomData.pair "NES" "e"])] }

/-- Systems view (one system, two visible roms), navigate mode, focus on
the rom column. -/
def systemsViewSession : Session :=
  { emptyFavoritesSession with
    view_mode := ViewMode.systems
    filtered_roms :=
      [("NES", [RomData.single "/r/a.nes", RomData.single "/r/b.nes"])] }

/-- Systems view with an emulator process already tracked. -/
def runningProcessSession : Session :=
  { systemsViewSession with emulator_process := some 7 }

/-- Systems view at system index 0 with focus on the system column. -/
def ringStartSession : Session :=
  { systemsViewSession with focus := Focus.systems }

end Nobsrom

namespace Nobsrom

/-! ## Dictionary lemmas -/

theorem dlookup_eq_none_of_not_mem {α : Type} {d : List (String × α)}
    {k : String} (h : k ∉ d.map Prod.fst) : dlookup d k = none := by
  induction d with
  | nil => rfl
  | cons hd tl ih =>
      obtain ⟨k', v'⟩ := hd
      simp only [List.map_cons, List.mem_cons] at h
      push_neg at h
      simp [dlookup, Ne.symm h.1, ih h.2]

theorem not_mem_of_dlookup_eq_none {α : Type} {d : List (String × α)}
    {k : String} (h : dlookup d k = none) : k ∉ d.map Prod.fst := by
  induction d with
  | nil => simp
  | cons hd tl ih =>
      obtain ⟨k', v'⟩ := hd
      simp only [dlookup] at h
      split at h
      · exact absurd h (by simp)
      · next hk =>
          simp only [List.map_cons, List.mem_cons]
          push_neg
          exact ⟨fun he => hk he.symm, ih h⟩

theorem dlookup_mem {α : Type} {d : List (String × α)} {k : String} {v : α}
    (h : dlookup d k = some v) : (k, v) ∈ d := by
  induction d with
  | nil => simp [dlookup] at h
  | cons hd tl ih =>
      obtain ⟨k', v'⟩ := hd
      simp only [dlookup] at h
      split at h
      · simp_all
      · exact List.mem_cons_of_mem _ (ih h)

theorem dlookup_dset_self {α : Type} (d : List (String × α)) (k : String)
    (v : α) : dlookup (dset d k v) k = some v := by
  induction d with
  | nil => simp [dset, dlookup]
  | cons hd tl ih =>
      obtain ⟨k', v'⟩ := hd
      by_cases h : k' = k <;> simp [dset, dlookup, h, ih]

theorem dlookup_dset_ne {α : Type} (d : List (String × α)) {k k' : String}
    (v : α) (h : k' ≠ k) : dlookup (dset d k v) k' = dlookup d k' := by
  induction d with
  | nil => simp [dset, dlookup, Ne.symm h]
  | cons hd tl ih =>
      obtain ⟨k'', v''⟩ := hd
      by_cases hk : k'' = k
      · subst hk
        simp [dset, dlookup, Ne.symm h]
      · simp [dset, dlookup, hk, ih]

theorem dlookup_ddel_ne {α : Type} (d : List (String × α)) {k k' : String}
    (h : k' ≠ k) : dlookup (ddel d k) k' = dlookup d k' := by
  induction d with
  | nil => rfl
  | cons hd tl ih =>
      obtain ⟨k'', v''⟩ := hd
      by_cases hk : k'' = k
      · simp [ddel, dlookup, hk, Ne.symm h]
      · simp [ddel, dlookup, hk, ih]

theorem dlookup_ddel_self {α : Type} {d : List (String × α)} {k : String}
    (h : (d.map Prod.fst).Nodup) : dlookup (ddel d k) k = none := by
  induction d with
  | nil => rfl
  | cons hd tl ih =>
      obtain ⟨k', v'⟩ := hd
      simp only [List.map_cons, List.nodup_cons] at h
      by_cases hk : k' = k
      · subst hk
        simpa [ddel] using dlookup_eq_none_of_not_mem h.1
      · simp [ddel, dlookup, hk, ih h.2]

theorem dset_dset_same {α : Type} (d : List (String × α)) (k : String)
    (v w : α) : dset (dset d k v) k w = dset d k w := by
  induction d with
  | nil => simp [dset]
  | cons hd tl ih =>
      obtain ⟨k', v'⟩ := hd
      by_cases h : k' = k <;> simp [dset, h, ih]

theorem dset_lookup_self {α : Type} {d : List (String × α)} {k : String}
    {v : α} (h : dlookup d k = some v) : dset d k v = d := by
  induction d with
  | nil => simp [dlookup] at h
  | cons hd tl ih =>
      obtain ⟨k', v'⟩ := hd
      simp only [dlookup] at h
      by_cases hk : k' = k
      · simp only [hk, if_pos rfl] at h
        simp [dset, hk, ← Option.some_inj.mp h]
      · simp only [if_neg hk] at h
        simp [dset, hk, ih h]

theorem ddel_dset_of_none {α : Type} {d : List (String × α)} {k : String}
    (v : α) (h : dlookup d k = none) : ddel (dset d k v) k = d := by
  induction d with
  | nil => simp [dset, ddel]
  | cons hd tl ih =>
      obtain ⟨k', v'⟩ := hd
      simp only [dlookup] at h
      split at h
      · exact absurd h (by simp)
      · next hk => simp [dset, ddel, hk, ih h]

theorem map_fst_dset_of_lookup {α : Type} {d : List (String × α)}
    {k : String} {w : α} (v : α) (h : dlookup d k = some w) :
    (dset d k v).map Prod.fst = d.map Prod.fst := by
  induction d with
  | nil => simp [dlookup] at h
  | cons hd tl ih =>
      obtain ⟨k', v'⟩ := hd
      simp only [dlookup] at h
      by_cases hk : k' = k
      · simp [dset, hk]
      · simp only [if_neg hk] at h
        simp [dset, hk, ih h]

end Nobsrom

namespace Nobsrom

/-! ## Projection lemmas: which fields each operation leaves unchanged -/

@[simp] theorem update_filtered_roms_config (s : Session) :
    (update_filtered_roms s).config = s.config := by
  unfold update_filtered_roms; split <;> split <;> rfl

@[simp] theorem update_filtered_roms_roms (s : Session) :
    (update_filtered_roms s).roms = s.roms := by
  unfold update_filtered_roms; split <;> split <;> rfl

@[simp] theorem update_filtered_roms_all_roms (s : Session) :
    (update_filtered_roms s).all_roms = s.all_roms := by
  unfold update_filtered_roms; split <;> split <;> rfl

@[simp] theorem update_filtered_roms_favorites (s : Session) :
    (update_filtered_roms s).favorites = s.favorites := by
  unfold update_filtered_roms; split <;> split <;> rfl

@[simp] theorem update_filtered_roms_selected_system (s : Session) :
    (update_filtered_roms s).selected_system = s.selected_system := by
  unfold update_filtered_roms; split <;> split <;> rfl

@[simp] theorem update_filtered_roms_selected_rom (s : Session) :
    (update_filtered_roms s).selected_rom = s.selected_rom := by
  unfold update_filtered_roms; split <;> split <;> rfl

@[simp] theorem update_filtered_roms_emulator_process (s : Session) :
    (update_filtered_roms s).emulator_process = s.emulator_process := by
  unfold update_filtered_roms; split <;> split <;> rfl

@[simp] theorem update_filtered_roms_focus (s : Session) :
    (update_filtered_roms s).focus = s.focus := by
  unfold update_filtered_roms; split <;> split <;> rfl

@[simp] theorem update_filtered_roms_filter_string (s : Session) :
    (update_filtered_roms s).filter_string = s.filter_string := by
  unfold update_filtered_roms; split <;> split <;> rfl

@[simp] theorem update_filtered_roms_mode (s : Session) :
    (update_filtered_roms s).mode = s.mode := by
  unfold update_filtered_roms; split <;> split <;> rfl

@[simp] theorem update_filtered_roms_view_mode (s : Session) :
    (update_filtered_roms s).view_mode = s.view_mode := by
  unfold update_filtered_roms; split <;> split <;> rfl

@[simp] theorem update_filtered_roms_time (s : Session) :
    (update_filtered_roms s).last_selection_change_time =
      s.last_selection_change_time := by
  unfold update_filtered_roms; split <;> split <;> rfl

@[simp] theorem apply_selection_timestamp_config (now : ℚ) (a : Int)
    (b : ViewMode) (c : Int) (s : Session) :
    (apply_selection_timestamp now a b c s).config = s.config := by
  unfold apply_selection_timestamp; split <;> rfl

@[simp] theorem apply_selection_timestamp_roms (now : ℚ) (a : Int)
    (b : ViewMode) (c : Int) (s : Session) :
    (apply_selection_timestamp now a b c s).roms = s.roms := by
  unfold apply_selection_timestamp; split <;> rfl

@[simp] theorem apply_selection_timestamp_all_roms (now : ℚ) (a : Int)
    (b : ViewMode) (c : Int) (s : Session) :
    (apply_selection_timestamp now a b c s).all_roms = s.all_roms := by
  unfold apply_selection_timestamp; split <;> rfl

@[simp] theorem apply_selection_timestamp_favorites (now : ℚ) (a : Int)
    (b : ViewMode) (c : Int) (s : Session) :
    (apply_selection_timestamp now a b c s).favorites = s.favorites := by
  unfold apply_selection_timestamp; split <;> rfl

@[simp] theorem apply_selection_timestamp_selected_system (now : ℚ) (a : Int)
    (b : ViewMode) (c : Int) (s : Session) :
    (apply_selection_timestamp now a b c s).selected_system =
      s.selected_system := by
  unfold apply_selection_timestamp; split <;> rfl

@[simp] theorem apply_selection_timestamp_selected_rom (now : ℚ) (a : Int)
    (b : ViewMode) (c : Int) (s : Session) :
    (apply_selection_timestamp now a b c s).selected_rom = s.selected_rom := by
  unfold apply_selection_timestamp; split <;> rfl

@[simp] theorem apply_selection_timestamp_emulator_process (now : ℚ) (a : Int)
    (b : ViewMode) (c : Int) (s : Session) :
    (apply_selection_timestamp now a b c s).emulator_process =
      s.emulator_process := by
  unfold apply_selection_timestamp; split <;> rfl

@[simp] theorem apply_selection_timestamp_focus (now : ℚ) (a : Int)
    (b : ViewMode) (c : Int) (s : Session) :
    (apply_selection_timestamp now a b c s).focus = s.focus := by
  unfold apply_selection_timestamp; split <;> rfl

@[simp] theorem apply_selection_timestamp_filter_string (now : ℚ) (a : Int)
    (b : ViewMode) (c : Int) (s : Session) :
    (apply_selection_timestamp now a b c s).filter_string =
      s.filter_string := by
  unfold apply_selection_timestamp; split <;> rfl

@[simp] theorem apply_selection_timestamp_filtered_roms (now : ℚ) (a : Int)
    (b : ViewMode) (c : Int) (s : Session) :
    (apply_selection_timestamp now a b c s).filtered_roms =
      s.filtered_roms := by
  unfold apply_selection_timestamp; split <;> rfl

@[simp] theorem apply_selection_timestamp_mode (now : ℚ) (a : Int)
    (b : ViewMode) (c : Int) (s : Session) :
    (apply_selection_timestamp now a b c s).mode = s.mode := by
  unfold apply_selection_timestamp; split <;> rfl

@[simp] theorem apply_selection_timestamp_view_mode (now : ℚ) (a : Int)
    (b : ViewMode) (c : Int) (s : Session) :
    (apply_selection_timestamp now a b c s).view_mode = s.view_mode := by
  unfold apply_selection_timestamp; split <;> rfl

@[simp] theorem toggle_by_system_and_path_favorites (s : Session)
    (system rom_path : String) :
    (toggle_favorite_by_system_and_path s system rom_path).favorites =
      toggle_favorite_map s.favorites system rom_path := by
  simp [toggle_favorite_by_system_and_path]

@[simp] theorem toggle_by_system_and_path_view_mode (s : Session)
    (system rom_path : String) :
    (toggle_favorite_by_system_and_path s system rom_path).view_mode =
      s.view_mode := by
  simp [toggle_favorite_by_system_and_path]

@[simp] theorem toggle_by_system_and_path_roms (s : Session)
    (system rom_path : String) :
    (toggle_favorite_by_system_and_path s system rom_path).roms = s.roms := by
  simp [toggle_favorite_by_system_and_path]

@[simp] theorem toggle_by_system_and_path_selected_system (s : Session)
    (system rom_path : String) :
    (toggle_favorite_by_system_and_path s system rom_path).selected_system =
      s.selected_system := by
  simp [toggle_favorite_by_system_and_path]

end Nobsrom

namespace Nobsrom

/-! ## Computation lemmas for the favorites toggle -/

theorem toggle_map_of_none {fav : List (String × List String)} {sys : String}
    (p : String) (hl : dlookup fav sys = none) :
    toggle_favorite_map fav sys p = dset fav sys [p] := by
  simp [toggle_favorite_map, hl, dlookup_dset_self, dset_dset_same]

theorem toggle_map_of_not_mem {fav : List (String × List String)}
    {sys p : String} {c : List String} (hl : dlookup fav sys = some c)
    (hp : p ∉ c) :
    toggle_favorite_map fav sys p = dset fav sys (c ++ [p]) := by
  simp [toggle_favorite_map, hl, hp]

theorem toggle_map_rem_nil {fav : List (String × List String)}
    {sys p : String} {c : List String} (hl : dlookup fav sys = some c)
    (hp : p ∈ c) (he : c.erase p = []) :
    toggle_favorite_map fav sys p = ddel fav sys := by
  simp [toggle_favorite_map, hl, hp, he]

theorem toggle_map_rem {fav : List (String × List String)}
    {sys p : String} {c : List String} (hl : dlookup fav sys = some c)
    (hp : p ∈ c) (he : c.erase p ≠ []) :
    toggle_favorite_map fav sys p = dset fav sys (c.erase p) := by
  simp [toggle_favorite_map, hl, hp, he]

theorem eq_single_of_erase_eq_nil {c : List String} {p : String} (hp : p ∈ c)
    (he : c.erase p = []) : c = [p] := by
  have h1 := List.length_erase_of_mem hp
  rw [he] at h1
  simp only [List.length_nil] at h1
  have h2 : 0 < c.length := List.length_pos.mpr (List.ne_nil_of_mem hp)
  have h3 : c.length = 1 := by omega
  obtain ⟨a, ha⟩ := List.length_eq_one.mp h3
  subst ha
  simp only [List.mem_singleton] at hp
  rw [hp]

/-- Double toggle of the same `(sys, p)` restores favorite membership at
every `(s', p')`, for a well-formed favorites dict. -/
theorem toggle_map_twice_favMem (fav : List (String × List String))
    (sys p : String) (hKeys : favKeysNodup fav) (hVals : favValuesNodup fav)
    (s' p' : String) :
    favMem (toggle_favorite_map (toggle_favorite_map fav sys p) sys p) s' p' ↔
      favMem fav s' p' := by
  cases hl : dlookup fav sys with
  | none =>
      rw [toggle_map_of_none p hl]
      rw [toggle_map_rem_nil (dlookup_dset_self fav sys [p])
        (List.mem_singleton.mpr rfl) (List.erase_cons_head p [])]
      rw [ddel_dset_of_none [p] hl]
  | some c =>
      by_cases hp : p ∈ c
      · have hNod : c.Nodup := hVals (sys, c) (dlookup_mem hl)
        by_cases he : c.erase p = []
        · have hc : c = [p] := eq_single_of_erase_eq_nil hp he
          rw [toggle_map_rem_nil hl hp he]
          rw [toggle_map_of_none p (dlookup_ddel_self hKeys)]
          by_cases hs : s' = sys
          · subst hs
            unfold favMem
            rw [dlookup_dset_self, hl, hc]
          · unfold favMem
            rw [dlookup_dset_ne _ [p] hs, dlookup_ddel_ne _ hs]
        · rw [toggle_map_rem hl hp he]
          have hnp : p ∉ c.erase p := by
            rw [List.Nodup.mem_erase_iff hNod]
            simp
          rw [toggle_map_of_not_mem (dlookup_dset_self fav sys (c.erase p)) hnp]
          rw [dset_dset_same]
          by_cases hs : s' = sys
          · subst hs
            unfold favMem
            rw [dlookup_dset_self, hl]
            simp only [Option.getD_some]
            constructor
            · intro h
              rcases List.mem_append.mp h with h | h
              · exact List.mem_of_mem_erase h
              · rw [List.mem_singleton.mp h]
                exact hp
            · intro h
              by_cases hpp : p' = p
              · subst hpp
                exact List.mem_append.mpr (Or.inr (by simp))
              · exact List.mem_append.mpr
                  (Or.inl ((List.mem_erase_of_ne hpp).mpr h))
          · unfold favMem
            rw [dlookup_dset_ne _ _ hs]
      · rw [toggle_map_of_not_mem hl hp]
        have h2 := dlookup_dset_self fav sys (c ++ [p])
        have hpc : p ∈ c ++ [p] := by simp
        have he2 : (c ++ [p]).erase p = c := by
          rw [List.erase_append_right _ hp, List.erase_cons_head]
          simp
        by_cases hcnil : c = []
        · subst hcnil
          rw [toggle_map_rem_nil h2 hpc he2]
          by_cases hs : s' = sys
          · unfold favMem
            rw [hs]
            have hkeys2 : ((dset fav sys ([] ++ [p])).map Prod.fst).Nodup := by
              rw [map_fst_dset_of_lookup ([] ++ [p]) hl]
              exact hKeys
            rw [dlookup_ddel_self hkeys2, hl]
            simp
          · unfold favMem
            rw [dlookup_ddel_ne _ hs, dlookup_dset_ne _ _ hs]
        · rw [toggle_map_rem h2 hpc (by rw [he2]; exact hcnil)]
          rw [he2, dset_dset_same, dset_lookup_self hl]

/-! ## Claim theorems -/

/-- C10: at startup the view mode is "favorites" exactly when the loaded
favorites dict is non-empty, and "systems" otherwise (main.py line 85). -/
theorem startup_view_mode_iff_favorites
    (favorites : List (String × List String)) :
    (init_view_mode favorites = ViewMode.favorites ↔ favorites ≠ []) ∧
    (init_view_mode favorites = ViewMode.systems ↔ favorites = []) := by
  unfold init_view_mode
  by_cases h : favorites = [] <;> simp [h]

/-- C3 counterexample: a spawn failure whose exception is neither
`FileNotFoundError` nor `subprocess.CalledProcessError` — for example a
`PermissionError`, an OS-level process-creation failure — is not caught by
`launch_rom` (main.py lines 516-523): the exception propagates (fatal)
instead of being reported non-fatally with `emulator_process` left
empty. -/
theorem launch_rom_permission_error_fatal_cex :
    launch_rom spawnPermissionError "retroarch" "-L core {rom_path}"
      "/r/a.nes" none none = Except.error "PermissionError" := rfl

/-- C3 (amended): if the spawn attempt raises `FileNotFoundError` (the
executable cannot be found) or `subprocess.CalledProcessError`, then for
every emulator path, argument template, ROM path and working directory
`launch_rom` reports the condition non-fatally and records no process
handle — `emulator_process` keeps its prior value, so the user may
immediately retry.  Any other OS-level spawn error propagates uncaught. -/
theorem launch_rom_caught_failure_records_no_handle
    (env : SpawnEnv) (ep la rp : String) (si : Option String)
    (proc : Option Nat)
    (h : env (build_command ep la rp) si = SpawnOutcome.fileNotFound ∨
         env (build_command ep la rp) si = SpawnOutcome.calledProcessError) :
    launch_rom env ep la rp si proc = Except.ok proc := by
  rcases h with h | h <;> simp [launch_rom, h]

theorem launch_rom_caught_failure_records_no_handle_witness :
    (spawnFileNotFound
        (build_command "retroarch" "-L core {rom_path}" "/r/a.nes") none =
        SpawnOutcome.fileNotFound ∨
      spawnFileNotFound
        (build_command "retroarch" "-L core {rom_path}" "/r/a.nes") none =
        SpawnOutcome.calledProcessError) ∧
    launch_rom spawnFileNotFound "retroarch" "-L core {rom_path}"
      "/r/a.nes" none none = Except.ok none :=
  ⟨Or.inl rfl,
    launch_rom_caught_failure_records_no_handle spawnFileNotFound
      "retroarch" "-L core {rom_path}" "/r/a.nes" none none (Or.inl rfl)⟩

/-- C1 (code bug): with the favorites view visible and empty, navigate
mode and focus on the item column — a reachable state in which F2 is
honored — pressing F2 reaches
`self.filtered_roms.get("favorites", [])[0]` (main.py line 645) and
raises `IndexError`: the toggle does not complete, so out-of-range access
is not structurally prevented for every toggle.  (The "systems" branch is
guarded by `if rom_list:`; the "all" and "favorites" branches are not.) -/
theorem toggle_favorite_empty_view_raises :
    handle_input spawnFileNotFound 0 KEY_F2 emptyFavoritesSession =
      Except.error "IndexError" := by decide

/-- C2 counterexample: with favorites `{"NES": ["/r/a.nes", "/r/b.nes"]}`,
toggling `("NES", "/r/a.nes")` twice yields
`{"NES": ["/r/b.nes", "/r/a.nes"]}`: the re-added path is appended at the
end of the list, so the map does not return to exactly its prior state
(the path order differs). -/
theorem double_toggle_not_exact_state_cex :
    (toggle_favorite_by_system_and_path
      (toggle_favorite_by_system_and_path twoFavoritesSession "NES"
        "/r/a.nes") "NES" "/r/a.nes").favorites ≠
      twoFavoritesSession.favorites := by decide

/-- C2 (amended): toggling the same `(system, path)` twice returns the
favorites map to a state with exactly the same favorite membership — every
pair is favorited afterwards iff it was before (given a well-formed dict:
distinct keys, no duplicated path within a system) — but not necessarily
to the literal prior state: a removed-and-re-added path is appended at the
end of its system's list, and a pruned-and-recreated system key at the end
of the dict. -/
theorem double_toggle_restores_membership (s : Session) (sys p : String)
    (hKeys : favKeysNodup s.favorites) (hVals : favValuesNodup s.favorites) :
    ∀ s' p',
      favMem ((toggle_favorite_by_system_and_path
          (toggle_favorite_by_system_and_path s sys p) sys p).favorites)
        s' p' ↔
      favMem s.favorites s' p' := by
  intro s' p'
  have hfav : (toggle_favorite_by_system_and_path
      (toggle_favorite_by_system_and_path s sys p) sys p).favorites =
      toggle_favorite_map (toggle_favorite_map s.favorites sys p) sys p := by
    simp
  rw [hfav]
  exact toggle_map_twice_favMem s.favorites sys p hKeys hVals s' p'

theorem double_toggle_restores_membership_witness :
    favKeysNodup twoFavoritesSession.favorites ∧
    favValuesNodup twoFavoritesSession.favorites ∧
    (favMem ((toggle_favorite_by_system_and_path
        (toggle_favorite_by_system_and_path twoFavoritesSession "NES"
          "/r/a.nes") "NES" "/r/a.nes").favorites) "NES" "/r/a.nes" ↔
      favMem twoFavoritesSession.favorites "NES" "/r/a.nes") :=
  ⟨by decide, by decide,
    double_toggle_restores_membership twoFavoritesSession "NES" "/r/a.nes"
      (by decide) (by decide) "NES" "/r/a.nes"⟩

end Nobsrom

namespace Nobsrom

/-! ## Membership lemmas for dict mutation, and inline/map toggle equality -/

theorem mem_dset {α : Type} {d : List (String × α)} {k : String} {v : α}
    {pr : String × α} (h : pr ∈ dset d k v) : pr = (k, v) ∨ pr ∈ d := by
  induction d with
  | nil => simpa [dset] using h
  | cons hd tl ih =>
      obtain ⟨k', v'⟩ := hd
      by_cases hk : k' = k
      · subst hk
        simp only [dset, if_true, eq_self_iff_true, List.mem_cons] at h
        rcases h with h | h
        · exact Or.inl h
        · exact Or.inr (List.mem_cons_of_mem _ h)
      · simp only [dset, if_neg hk, List.mem_cons] at h
        rcases h with h | h
        · exact Or.inr (h ▸ List.mem_cons_self _ _)
        · rcases ih h with h | h
          · exact Or.inl h
          · exact Or.inr (List.mem_cons_of_mem _ h)

theorem mem_ddel {α : Type} {d : List (String × α)} {k : String}
    {pr : String × α} (h : pr ∈ ddel d k) : pr ∈ d := by
  induction d with
  | nil => simp [ddel] at h
  | cons hd tl ih =>
      obtain ⟨k', v'⟩ := hd
      by_cases hk : k' = k
      · simp only [ddel, if_pos hk] at h
        exact List.mem_cons_of_mem _ h
      · simp only [ddel, if_neg hk, List.mem_cons] at h
        rcases h with h | h
        · exact h ▸ List.mem_cons_self _ _
        · exact List.mem_cons_of_mem _ (ih h)

theorem ddel_dset_self {α : Type} (d : List (String × α)) (k : String)
    (v : α) : ddel (dset d k v) k = ddel d k := by
  induction d with
  | nil => simp [dset, ddel]
  | cons hd tl ih =>
      obtain ⟨k', v'⟩ := hd
      by_cases hk : k' = k <;> simp [dset, ddel, hk, ih]

/-- The inline favorites mutation of `toggle_favorite`'s "systems" branch
computes the same dict as `toggle_favorite_by_system_and_path`'s version:
the deferred pruning check only fires when the removal emptied the
list. -/
theorem toggle_favorite_inline_eq_map (fav : List (String × List String))
    (sys p : String) :
    toggle_favorite_inline fav sys p = toggle_favorite_map fav sys p := by
  cases hl : dlookup fav sys with
  | none =>
      rw [toggle_map_of_none p hl]
      unfold toggle_favorite_inline
      rw [hl]
      simp [dlookup_dset_self, dset_dset_same]
  | some c =>
      by_cases hp : p ∈ c
      · by_cases he : c.erase p = []
        · rw [toggle_map_rem_nil hl hp he]
          unfold toggle_favorite_inline
          rw [hl]
          simp [hl, hp, he, dlookup_dset_self, ddel_dset_self]
        · rw [toggle_map_rem hl hp he]
          unfold toggle_favorite_inline
          rw [hl]
          simp [hl, hp, he, dlookup_dset_self]
      · rw [toggle_map_of_not_mem hl hp]
        unfold toggle_favorite_inline
        rw [hl]
        simp [hl, hp, dlookup_dset_self]

/-- The dict-level toggle preserves "no key maps to an empty list". -/
theorem toggle_map_values_nonempty {fav : List (String × List String)}
    {sys p : String} (h : favValuesNonempty fav) :
    favValuesNonempty (toggle_favorite_map fav sys p) := by
  intro pr hpr
  cases hl : dlookup fav sys with
  | none =>
      rw [toggle_map_of_none p hl] at hpr
      rcases mem_dset hpr with h1 | h1
      · rw [h1]; simp
      · exact h pr h1
  | some c =>
      by_cases hp : p ∈ c
      · by_cases he : c.erase p = []
        · rw [toggle_map_rem_nil hl hp he] at hpr
          exact h pr (mem_ddel hpr)
        · rw [toggle_map_rem hl hp he] at hpr
          rcases mem_dset hpr with h1 | h1
          · rw [h1]; exact he
          · exact h pr h1
      · rw [toggle_map_of_not_mem hl hp] at hpr
        rcases mem_dset hpr with h1 | h1
        · rw [h1]; simp
        · exact h pr h1

/-- The restore half of the toggle never changes the favorites dict. -/
theorem toggle_restore_favorites {i : Int} {s1 s' : Session}
    (h : toggle_favorite_restore i s1 = Except.ok s') :
    s'.favorites = s1.favorites := by
  unfold toggle_favorite_restore at h
  cases hR : restore_rom_list (update_filtered_roms s1) with
  | error e => rw [hR] at h; exact absurd h (by simp)
  | ok rl =>
      rw [hR] at h
      simp only [Except.ok.injEq] at h
      rw [← h]
      simp

/-- The mutation half of the toggle preserves "no key maps to an empty
list": it either leaves the favorites dict unchanged (empty visible list
or no systems) or applies the dict-level toggle to the resolved
`(system, path)`. -/
theorem toggle_mutate_values_nonempty {s s1 : Session}
    (hfav : favValuesNonempty s.favorites)
    (h : toggle_favorite_mutate s = Except.ok s1) :
    favValuesNonempty s1.favorites := by
  unfold toggle_favorite_mutate at h
  split at h
  · -- systems view
    split at h
    · split at h
      · exact absurd h (by simp)
      · split at h
        · split at h
          · exact absurd h (by simp)
          · split at h
            · simp only [Except.ok.injEq] at h
              rw [← h]
              simp only [toggle_favorite_inline_eq_map]
              exact toggle_map_values_nonempty hfav
            · exact absurd h (by simp)
        · simp only [Except.ok.injEq] at h
          rw [← h]
          exact hfav
    · simp only [Except.ok.injEq] at h
      rw [← h]
      exact hfav
  · -- all view
    split at h
    · exact absurd h (by simp)
    · split at h
      · simp only [Except.ok.injEq] at h
        rw [← h]
        simp only [toggle_by_system_and_path_favorites]
        exact toggle_map_values_nonempty hfav
      · exact absurd h (by simp)
  · -- favorites view
    split at h
    · exact absurd h (by simp)
    · split at h
      · simp only [Except.ok.injEq] at h
        rw [← h]
        simp only [toggle_by_system_and_path_favorites]
        exact toggle_map_values_nonempty hfav
      · exact absurd h (by simp)

end Nobsrom

namespace Nobsrom

/-- The visible list of the post-restore state equals the list the restore
block derived: the two computations read the same fields, none of which
the final cursor write changes. -/
theorem visible_eq_of_restore {s2 t : Session} {rl : List RomData}
    (hv : t.view_mode = s2.view_mode) (hr : t.roms = s2.roms)
    (hs : t.selected_system = s2.selected_system)
    (hf : t.filtered_roms = s2.filtered_roms)
    (h : restore_rom_list s2 = Except.ok rl) :
    visible_rom_list t = rl := by
  unfold restore_rom_list at h
  unfold visible_rom_list
  rw [hv, hr, hs, hf]
  cases hvm : s2.view_mode with
  | systems =>
      simp only [hvm] at h ⊢
      cases hg : pyGet (s2.roms.map Prod.fst) s2.selected_system with
      | none =>
          simp only [hg] at h
          exact absurd h (by simp)
      | some name =>
          simp only [hg, Except.ok.injEq] at h ⊢
          exact h
  | all =>
      simp only [hvm, Except.ok.injEq] at h ⊢
      exact h
  | favorites =>
      simp only [hvm, Except.ok.injEq] at h ⊢
      exact h

/-- The restore half writes exactly the clamped cursor, measured against
the re-derived visible list of the post-state. -/
theorem toggle_restore_selected_rom {i : Int} {s1 s' : Session}
    (h : toggle_favorite_restore i s1 = Except.ok s') :
    s'.selected_rom =
      max (min i (((visible_rom_list s').length : Int) - 1)) 0 := by
  unfold toggle_favorite_restore at h
  cases hR : restore_rom_list (update_filtered_roms s1) with
  | error e => rw [hR] at h; exact absurd h (by simp)
  | ok rl =>
      rw [hR] at h
      simp only [Except.ok.injEq] at h
      have hvis : visible_rom_list s' = rl := by
        refine visible_eq_of_restore ?_ ?_ ?_ ?_ hR
        all_goals rw [← h]
      rw [hvis, ← h]

/-- C4: every toggle preserves the invariant that a system key is in the
favorites dict only with a non-empty list of paths; in particular,
removing the last favorite of a system deletes that system's key (for
both the dict-level toggle of `toggle_favorite_by_system_and_path` and
the inline one of `toggle_favorite`'s "systems" branch) rather than
leaving it mapped to an empty list. -/
theorem toggle_preserves_pruning_invariant :
    (∀ s s' : Session, favValuesNonempty s.favorites →
        toggle_favorite s = Except.ok s' →
        favValuesNonempty s'.favorites) ∧
    (∀ (fav : List (String × List String)) (sys p : String),
        favKeysNodup fav → dlookup fav sys = some [p] →
        dlookup (toggle_favorite_map fav sys p) sys = none ∧
        dlookup (toggle_favorite_inline fav sys p) sys = none) := by
  constructor
  · intro s s' hfav hok
    unfold toggle_favorite at hok
    cases hm : toggle_favorite_mutate s with
    | error e => rw [hm] at hok; exact absurd hok (by simp)
    | ok s1 =>
        rw [hm] at hok
        rw [toggle_restore_favorites hok]
        exact toggle_mutate_values_nonempty hfav hm
  · intro fav sys p hk hl
    have hmem : p ∈ [p] := List.mem_singleton.mpr rfl
    have herase : ([p] : List String).erase p = [] := List.erase_cons_head p []
    constructor
    · rw [toggle_map_rem_nil hl hmem herase]
      exact dlookup_ddel_self hk
    · rw [toggle_favorite_inline_eq_map]
      rw [toggle_map_rem_nil hl hmem herase]
      exact dlookup_ddel_self hk

theorem toggle_preserves_pruning_invariant_witness :
    favValuesNonempty oneFavoriteSession.favorites ∧
    toggle_favorite oneFavoriteSession =
      Except.ok (toggle_favorite_run oneFavoriteSession) ∧
    favValuesNonempty (toggle_favorite_run oneFavoriteSession).favorites ∧
    favKeysNodup [("NES", ["/r/a.nes"])] ∧
    dlookup [("NES", ["/r/a.nes"])] "NES" = some ["/r/a.nes"] ∧
    dlookup (toggle_favorite_map [("NES", ["/r/a.nes"])] "NES" "/r/a.nes")
      "NES" = none :=
  ⟨by decide, by decide,
   toggle_preserves_pruning_invariant.1 oneFavoriteSession
     (toggle_favorite_run oneFavoriteSession) (by decide) (by decide),
   by decide, by decide,
   (toggle_preserves_pruning_invariant.2 [("NES", ["/r/a.nes"])] "NES"
     "/r/a.nes" (by decide) (by decide)).1⟩

/-- C5: whenever `toggle_favorite` completes, the visible list for the
current view has been re-derived and the cursor is re-clamped to
`max(min(previous_index, new_len - 1), 0)` — in particular, unfavoriting
the item at index 4 of a 5-item favorited list leaves the cursor at
index 3 (see the witness). -/
theorem toggle_favorite_clamps_cursor (s s' : Session)
    (h : toggle_favorite s = Except.ok s') :
    s'.selected_rom =
      max (min s.selected_rom (((visible_rom_list s').length : Int) - 1))
        0 := by
  unfold toggle_favorite at h
  cases hm : toggle_favorite_mutate s with
  | error e => rw [hm] at h; exact absurd h (by simp)
  | ok s1 =>
      rw [hm] at h
      exact toggle_restore_selected_rom h

theorem toggle_favorite_clamps_cursor_witness :
    toggle_favorite fiveFavoritesSession =
      Except.ok (toggle_favorite_run fiveFavoritesSession) ∧
    (toggle_favorite_run fiveFavoritesSession).selected_rom =
      max (min fiveFavoritesSession.selected_rom
        (((visible_rom_list
            (toggle_favorite_run fiveFavoritesSession)).length : Int) - 1))
        0 ∧
    fiveFavoritesSession.selected_rom = 4 ∧
    (toggle_favorite_run fiveFavoritesSession).selected_rom = 3 :=
  ⟨by decide,
   toggle_favorite_clamps_cursor fiveFavoritesSession
     (toggle_favorite_run fiveFavoritesSession) (by decide),
   by decide, by decide⟩

end Nobsrom

namespace Nobsrom

/-! ## Input-handling lemmas -/

/-- The selection timestamp is untouched when nothing moved. -/
theorem apply_selection_timestamp_self (now : ℚ) (s : Session) :
    apply_selection_timestamp now s.selected_rom s.view_mode
      s.selected_system s = s := by
  unfold apply_selection_timestamp
  simp

/-- `nav_rom_list` reads only the view mode, catalog, system index and
filtered dict. -/
theorem nav_rom_list_congr {s t : Session} (hv : t.view_mode = s.view_mode)
    (hr : t.roms = s.roms) (hs : t.selected_system = s.selected_system)
    (hf : t.filtered_roms = s.filtered_roms) :
    nav_rom_list t = nav_rom_list s := by
  unfold nav_rom_list
  rw [hv, hr, hs, hf]

/-- C8: Enter requests a launch only when focus is on the item column, no
emulator process is tracked and the resolved visible list is non-empty;
whenever any of these preconditions fails — in particular a second Enter
while a launched process is still tracked — the Enter event is a no-op:
the exact same session state is returned (indices, filter, favorites,
mode all unchanged) and no spawn is attempted, for every spawn
environment. -/
theorem enter_noop_when_preconditions_fail (env : SpawnEnv) (now : ℚ)
    (s : Session) (rom_list : List RomData)
    (hl : nav_rom_list s = Except.ok rom_list)
    (hpre : ¬(s.focus = Focus.roms ∧ s.emulator_process = none ∧
        rom_list ≠ [])) :
    handle_input env now 10 s = Except.ok s := by
  have hlaunch : launch_selected_rom env (s.roms.map Prod.fst) rom_list s
      = Except.ok s := by
    unfold launch_selected_rom
    rw [if_neg hpre]
  unfold handle_input
  rw [hl]
  unfold handle_key
  by_cases hm : s.mode = Mode.filter
  · simp [hm, hlaunch, apply_selection_timestamp_self]
  · simp [hm, hlaunch, apply_selection_timestamp_self]

theorem enter_noop_when_preconditions_fail_witness :
    nav_rom_list runningProcessSession =
      Except.ok [RomData.single "/r/a.nes", RomData.single "/r/b.nes"] ∧
    ¬(runningProcessSession.focus = Focus.roms ∧
      runningProcessSession.emulator_process = none ∧
      ([RomData.single "/r/a.nes", RomData.single "/r/b.nes"] :
        List RomData) ≠ []) ∧
    handle_input spawnFileNotFound 0 10 runningProcessSession =
      Except.ok runningProcessSession :=
  ⟨by decide, by decide,
   enter_noop_when_preconditions_fail spawnFileNotFound 0
     runningProcessSession
     [RomData.single "/r/a.nes", RomData.single "/r/b.nes"]
     (by decide) (by decide)⟩

end Nobsrom

namespace Nobsrom

/-- A bounded non-negative index always resolves. -/
theorem pyGet_some_of_bounds {α : Type} {l : List α} {i : Int} (h0 : 0 ≤ i)
    (hlt : i < l.length) : ∃ x, pyGet l i = some x := by
  unfold pyGet
  rw [if_pos h0]
  have hi : i.toNat < l.length := by omega
  exact ⟨l.get ⟨i.toNat, hi⟩, List.get?_eq_get hi⟩

/-- One ArrowDown in navigate mode with item focus and a non-empty list:
`selected_rom := (selected_rom + 1) % num_roms`. -/
theorem nav_down_step (env : SpawnEnv) (now : ℚ) (s : Session)
    (l : List RomData) (hm : s.mode = Mode.navigate)
    (hf : s.focus = Focus.roms) (hl : nav_rom_list s = Except.ok l)
    (hne : l ≠ []) :
    handle_input env now 258 s =
      Except.ok (apply_selection_timestamp now s.selected_rom s.view_mode
        s.selected_system
        { s with selected_rom :=
            (s.selected_rom + 1) % (l.length : Int) }) := by
  have hpos : (0 : Int) < l.length := by
    have := List.length_pos.mpr hne
    exact_mod_cast this
  unfold handle_input
  rw [hl]
  unfold handle_key
  simp [hm, hf, hpos]

/-- One ArrowUp in navigate mode with item focus and a non-empty list:
`selected_rom := (selected_rom - 1) % num_roms`. -/
theorem nav_up_step (env : SpawnEnv) (now : ℚ) (s : Session)
    (l : List RomData) (hm : s.mode = Mode.navigate)
    (hf : s.focus = Focus.roms) (hl : nav_rom_list s = Except.ok l)
    (hne : l ≠ []) :
    handle_input env now 259 s =
      Except.ok (apply_selection_timestamp now s.selected_rom s.view_mode
        s.selected_system
        { s with selected_rom :=
            (s.selected_rom - 1) % (l.length : Int) }) := by
  have hpos : (0 : Int) < l.length := by
    have := List.length_pos.mpr hne
    exact_mod_cast this
  unfold handle_input
  rw [hl]
  unfold handle_key
  simp [hm, hf, hpos]

/-- One ArrowDown keeps navigate mode, item focus and the same visible
list, and advances the cursor by one modulo the list length. -/
theorem nav_ready_step (env : SpawnEnv) (now : ℚ) {s : Session}
    {l : List RomData} (hm : s.mode = Mode.navigate)
    (hf : s.focus = Focus.roms) (hl : nav_rom_list s = Except.ok l)
    (hne : l ≠ []) :
    (handle_input_run env now 258 s).selected_rom =
      (s.selected_rom + 1) % (l.length : Int) ∧
    (handle_input_run env now 258 s).mode = Mode.navigate ∧
    (handle_input_run env now 258 s).focus = Focus.roms ∧
    nav_rom_list (handle_input_run env now 258 s) = Except.ok l := by
  have hrun : handle_input_run env now 258 s =
      apply_selection_timestamp now s.selected_rom s.view_mode
        s.selected_system
        { s with selected_rom :=
            (s.selected_rom + 1) % (l.length : Int) } := by
    unfold handle_input_run
    rw [nav_down_step env now s l hm hf hl hne]
  refine ⟨?_, ?_, ?_, ?_⟩ <;> rw [hrun]
  · simp
  · simp [hm]
  · simp [hf]
  · rw [← hl]
    apply nav_rom_list_congr <;> simp

/-- Iterating ArrowDown `k` times adds `k` modulo the list length. -/
theorem nav_down_iterate (env : SpawnEnv) (now : ℚ) (k : ℕ) :
    ∀ (s : Session) (l : List RomData), s.mode = Mode.navigate →
      s.focus = Focus.roms → nav_rom_list s = Except.ok l → l ≠ [] →
      0 ≤ s.selected_rom → s.selected_rom < l.length →
      ((handle_input_run env now 258)^[k] s).selected_rom =
        (s.selected_rom + k) % (l.length : Int) := by
  induction k with
  | zero =>
      intro s l hm hf hl hne h0 hlt
      simp only [Function.iterate_zero, id_eq, Nat.cast_zero, Int.add_zero]
      exact (Int.emod_eq_of_lt h0 hlt).symm
  | succ k ih =>
      intro s l hm hf hl hne h0 hlt
      have hpos : (0 : Int) < l.length := by omega
      obtain ⟨hsel, hm', hf', hl'⟩ := nav_ready_step env now hm hf hl hne
      have hnn : 0 ≤ (handle_input_run env now 258 s).selected_rom := by
        rw [hsel]
        exact Int.emod_nonneg _ (by omega)
      have hlt2 : (handle_input_run env now 258 s).selected_rom <
          (l.length : Int) := by
        rw [hsel]
        exact Int.emod_lt_of_pos _ hpos
      rw [Function.iterate_succ_apply, ih _ l hm' hf' hl' hne hnn hlt2, hsel,
        Int.emod_add_emod]
      congr 1
      push_cast
      ring

end Nobsrom

namespace Nobsrom

/-- C6: in navigate mode with item focus and a non-empty visible list of
length N, ArrowDown moves `selected_rom` by +1 and ArrowUp by -1, both
modulo N, so N consecutive ArrowDown presses return `selected_rom` to its
starting value, for every in-range starting index and every N ≥ 1. -/
theorem item_wraparound (env : SpawnEnv) (now : ℚ) (s : Session)
    (l : List RomData) (hm : s.mode = Mode.navigate)
    (hf : s.focus = Focus.roms) (hl : nav_rom_list s = Except.ok l)
    (hne : l ≠ []) (h0 : 0 ≤ s.selected_rom)
    (hlt : s.selected_rom < l.length) :
    (handle_input_run env now 258 s).selected_rom =
      (s.selected_rom + 1) % (l.length : Int) ∧
    (handle_input_run env now 259 s).selected_rom =
      (s.selected_rom - 1) % (l.length : Int) ∧
    ((handle_input_run env now 258)^[l.length] s).selected_rom =
      s.selected_rom := by
  refine ⟨?_, ?_, ?_⟩
  · unfold handle_input_run
    rw [nav_down_step env now s l hm hf hl hne]
    simp
  · unfold handle_input_run
    rw [nav_up_step env now s l hm hf hl hne]
    simp
  · rw [nav_down_iterate env now l.length s l hm hf hl hne h0 hlt]
    rw [Int.add_emod, Int.emod_self, Int.add_zero,
      Int.emod_emod_of_dvd _ dvd_rfl]
    exact Int.emod_eq_of_lt h0 hlt

theorem item_wraparound_witness :
    systemsViewSession.mode = Mode.navigate ∧
    systemsViewSession.focus = Focus.roms ∧
    nav_rom_list systemsViewSession =
      Except.ok [RomData.single "/r/a.nes", RomData.single "/r/b.nes"] ∧
    ((handle_input_run spawnFileNotFound 0 258
        systemsViewSession).selected_rom =
      (systemsViewSession.selected_rom + 1) %
        (([RomData.single "/r/a.nes",
           RomData.single "/r/b.nes"].length : Int)) ∧
     (handle_input_run spawnFileNotFound 0 259
        systemsViewSession).selected_rom =
      (systemsViewSession.selected_rom - 1) %
        (([RomData.single "/r/a.nes",
           RomData.single "/r/b.nes"].length : Int)) ∧
     ((handle_input_run spawnFileNotFound 0 258)^[2]
        systemsViewSession).selected_rom =
      systemsViewSession.selected_rom) :=
  ⟨by decide, by decide, by decide,
   item_wraparound spawnFileNotFound 0 systemsViewSession
     [RomData.single "/r/a.nes", RomData.single "/r/b.nes"]
     (by decide) (by decide) (by decide) (by decide) (by decide)
     (by decide)⟩

end Nobsrom

namespace Nobsrom

/-! ## View-ring step lemmas (navigate mode, system-column focus) -/

theorem ring_up_from_favorites (env : SpawnEnv) (now : ℚ) (s : Session)
    (hm : s.mode = Mode.navigate) (hf : s.focus = Focus.systems)
    (hv : s.view_mode = ViewMode.favorites) :
    (handle_input_run env now 259 s).view_mode = ViewMode.systems ∧
    (handle_input_run env now 259 s).selected_system =
      (s.roms.length : Int) - 1 ∧
    (handle_input_run env now 259 s).mode = Mode.navigate ∧
    (handle_input_run env now 259 s).focus = Focus.systems ∧
    (handle_input_run env now 259 s).roms = s.roms := by
  have hl : nav_rom_list s =
      Except.ok ((dlookup s.filtered_roms "favorites").getD []) := by
    unfold nav_rom_list
    rw [hv]
  have hstep : handle_input env now 259 s =
      Except.ok (apply_selection_timestamp now s.selected_rom s.view_mode
        s.selected_system (update_filtered_roms
          { s with view_mode := ViewMode.systems,
                   selected_system :=
                     ((s.roms.map Prod.fst).length : Int) - 1,
                   selected_rom := 0 })) := by
    unfold handle_input
    rw [hl]
    unfold handle_key
    simp [hm, hf, hv]
  refine ⟨?_, ?_, ?_, ?_, ?_⟩ <;>
    · unfold handle_input_run
      rw [hstep]
      simp [hm, hf]

theorem ring_up_from_all (env : SpawnEnv) (now : ℚ) (s : Session)
    (hm : s.mode = Mode.navigate) (hf : s.focus = Focus.systems)
    (hv : s.view_mode = ViewMode.all) (hM : 0 < s.roms.length) :
    (handle_input_run env now 259 s).view_mode = ViewMode.favorites ∧
    (handle_input_run env now 259 s).selected_system = s.selected_system ∧
    (handle_input_run env now 259 s).mode = Mode.navigate ∧
    (handle_input_run env now 259 s).focus = Focus.systems ∧
    (handle_input_run env now 259 s).roms = s.roms := by
  have hl : nav_rom_list s =
      Except.ok ((dlookup s.filtered_roms "all").getD []) := by
    unfold nav_rom_list
    rw [hv]
  have hstep : handle_input env now 259 s =
      Except.ok (apply_selection_timestamp now s.selected_rom s.view_mode
        s.selected_system (update_filtered_roms
          { s with view_mode := ViewMode.favorites,
                   selected_rom := 0 })) := by
    unfold handle_input
    rw [hl]
    unfold handle_key
    simp [hm, hf, hv, hM]
  refine ⟨?_, ?_, ?_, ?_, ?_⟩ <;>
    · unfold handle_input_run
      rw [hstep]
      simp [hm, hf]

theorem ring_up_systems_zero (env : SpawnEnv) (now : ℚ) (s : Session)
    (hm : s.mode = Mode.navigate) (hf : s.focus = Focus.systems)
    (hv : s.view_mode = ViewMode.systems) (hsel : s.selected_system = 0)
    (hM : 0 < s.roms.length) :
    (handle_input_run env now 259 s).view_mode = ViewMode.all ∧
    (handle_input_run env now 259 s).selected_system = s.selected_system ∧
    (handle_input_run env now 259 s).mode = Mode.navigate ∧
    (handle_input_run env now 259 s).focus = Focus.systems ∧
    (handle_input_run env now 259 s).roms = s.roms := by
  have hsys : s.roms.map Prod.fst ≠ [] := by
    simp only [ne_eq, List.map_eq_nil_iff]
    intro hc
    rw [hc] at hM
    simp at hM
  have hb0 : (0 : Int) ≤ s.selected_system := by rw [hsel]
  have hblt : s.selected_system < ((s.roms.map Prod.fst).length : Int) := by
    rw [hsel]
    simp
    exact hM
  obtain ⟨x, hx⟩ := pyGet_some_of_bounds hb0 hblt
  have hl : nav_rom_list s =
      Except.ok ((dlookup s.filtered_roms x).getD []) := by
    unfold nav_rom_list
    rw [hv, if_pos hsys, hx]
  have hstep : handle_input env now 259 s =
      Except.ok (apply_selection_timestamp now s.selected_rom s.view_mode
        s.selected_system (update_filtered_roms
          { s with view_mode := ViewMode.all, selected_rom := 0 })) := by
    unfold handle_input
    rw [hl]
    unfold handle_key
    simp [hm, hf, hv, hsel]
  refine ⟨?_, ?_, ?_, ?_, ?_⟩ <;>
    · unfold handle_input_run
      rw [hstep]
      simp [hm, hf]

theorem ring_up_systems_dec (env : SpawnEnv) (now : ℚ) (s : Session)
    (hm : s.mode = Mode.navigate) (hf : s.focus = Focus.systems)
    (hv : s.view_mode = ViewMode.systems) (h0 : 0 < s.selected_system)
    (hlt : s.selected_system < s.roms.length) :
    (handle_input_run env now 259 s).view_mode = ViewMode.systems ∧
    (handle_input_run env now 259 s).selected_system =
      s.selected_system - 1 ∧
    (handle_input_run env now 259 s).mode = Mode.navigate ∧
    (handle_input_run env now 259 s).focus = Focus.systems ∧
    (handle_input_run env now 259 s).roms = s.roms := by
  have hsys : s.roms.map Prod.fst ≠ [] := by
    simp only [ne_eq, List.map_eq_nil_iff]
    intro hc
    rw [hc] at hlt
    simp at hlt
    omega
  have hb0 : (0 : Int) ≤ s.selected_system := le_of_lt h0
  have hblt : s.selected_system < ((s.roms.map Prod.fst).length : Int) := by
    simp
    exact hlt
  obtain ⟨x, hx⟩ := pyGet_some_of_bounds hb0 hblt
  have hl : nav_rom_list s =
      Except.ok ((dlookup s.filtered_roms x).getD []) := by
    unfold nav_rom_list
    rw [hv, if_pos hsys, hx]
  have hne : ¬(s.selected_system = 0) := by omega
  have hstep : handle_input env now 259 s =
      Except.ok (apply_selection_timestamp now s.selected_rom s.view_mode
        s.selected_system
        { s with selected_system := s.selected_system - 1,
                 selected_rom := 0 }) := by
    unfold handle_input
    rw [hl]
    unfold handle_key
    simp [hm, hf, hv, hne, h0]
  refine ⟨?_, ?_, ?_, ?_, ?_⟩ <;>
    · unfold handle_input_run
      rw [hstep]
      simp [hm, hf, hv]

end Nobsrom

namespace Nobsrom

theorem ring_down_from_favorites (env : SpawnEnv) (now : ℚ) (s : Session)
    (hm : s.mode = Mode.navigate) (hf : s.focus = Focus.systems)
    (hv : s.view_mode = ViewMode.favorites) :
    (handle_input_run env now 258 s).view_mode = ViewMode.all ∧
    (handle_input_run env now 258 s).selected_system = s.selected_system ∧
    (handle_input_run env now 258 s).mode = Mode.navigate ∧
    (handle_input_run env now 258 s).focus = Focus.systems ∧
    (handle_input_run env now 258 s).roms = s.roms := by
  have hl : nav_rom_list s =
      Except.ok ((dlookup s.filtered_roms "favorites").getD []) := by
    unfold nav_rom_list
    rw [hv]
  have hstep : handle_input env now 258 s =
      Except.ok (apply_selection_timestamp now s.selected_rom s.view_mode
        s.selected_system (update_filtered_roms
          { s with view_mode := ViewMode.all, selected_rom := 0 })) := by
    unfold handle_input
    rw [hl]
    unfold handle_key
    simp [hm, hf, hv]
  refine ⟨?_, ?_, ?_, ?_, ?_⟩ <;>
    · unfold handle_input_run
      rw [hstep]
      simp [hm, hf]

theorem ring_down_from_all (env : SpawnEnv) (now : ℚ) (s : Session)
    (hm : s.mode = Mode.navigate) (hf : s.focus = Focus.systems)
    (hv : s.view_mode = ViewMode.all) (hM : 0 < s.roms.length) :
    (handle_input_run env now 258 s).view_mode = ViewMode.systems ∧
    (handle_input_run env now 258 s).selected_system = 0 ∧
    (handle_input_run env now 258 s).mode = Mode.navigate ∧
    (handle_input_run env now 258 s).focus = Focus.systems ∧
    (handle_input_run env now 258 s).roms = s.roms := by
  have hl : nav_rom_list s =
      Except.ok ((dlookup s.filtered_roms "all").getD []) := by
    unfold nav_rom_list
    rw [hv]
  have hstep : handle_input env now 258 s =
      Except.ok (apply_selection_timestamp now s.selected_rom s.view_mode
        s.selected_system (update_filtered_roms
          { s with view_mode := ViewMode.systems, selected_system := 0,
                   selected_rom := 0 })) := by
    unfold handle_input
    rw [hl]
    unfold handle_key
    simp [hm, hf, hv, hM]
  refine ⟨?_, ?_, ?_, ?_, ?_⟩ <;>
    · unfold handle_input_run
      rw [hstep]
      simp [hm, hf]

theorem ring_down_systems_inc (env : SpawnEnv) (now : ℚ) (s : Session)
    (hm : s.mode = Mode.navigate) (hf : s.focus = Focus.systems)
    (hv : s.view_mode = ViewMode.systems) (h0 : 0 ≤ s.selected_system)
    (hlt : s.selected_system < (s.roms.length : Int) - 1) :
    (handle_input_run env now 258 s).view_mode = ViewMode.systems ∧
    (handle_input_run env now 258 s).selected_system =
      s.selected_system + 1 ∧
    (handle_input_run env now 258 s).mode = Mode.navigate ∧
    (handle_input_run env now 258 s).focus = Focus.systems ∧
    (handle_input_run env now 258 s).roms = s.roms := by
  have hsys : s.roms.map Prod.fst ≠ [] := by
    simp only [ne_eq, List.map_eq_nil_iff]
    intro hc
    rw [hc] at hlt
    simp at hlt
    omega
  have hblt : s.selected_system < ((s.roms.map Prod.fst).length : Int) := by
    simp
    omega
  obtain ⟨x, hx⟩ := pyGet_some_of_bounds h0 hblt
  have hl : nav_rom_list s =
      Except.ok ((dlookup s.filtered_roms x).getD []) := by
    unfold nav_rom_list
    rw [hv, if_pos hsys, hx]
  have hstep : handle_input env now 258 s =
      Except.ok (apply_selection_timestamp now s.selected_rom s.view_mode
        s.selected_system (update_filtered_roms
          { s with selected_system := s.selected_system + 1,
                   selected_rom := 0 })) := by
    unfold handle_input
    rw [hl]
    unfold handle_key
    simp [hm, hf, hv, hlt]
  refine ⟨?_, ?_, ?_, ?_, ?_⟩ <;>
    · unfold handle_input_run
      rw [hstep]
      simp [hm, hf, hv]

theorem ring_down_systems_last (env : SpawnEnv) (now : ℚ) (s : Session)
    (hm : s.mode = Mode.navigate) (hf : s.focus = Focus.systems)
    (hv : s.view_mode = ViewMode.systems) (hM : 0 < s.roms.length)
    (hsel : s.selected_system = (s.roms.length : Int) - 1) :
    (handle_input_run env now 258 s).view_mode = ViewMode.favorites ∧
    (handle_input_run env now 258 s).selected_system = s.selected_system ∧
    (handle_input_run env now 258 s).mode = Mode.navigate ∧
    (handle_input_run env now 258 s).focus = Focus.systems ∧
    (handle_input_run env now 258 s).roms = s.roms := by
  have hsys : s.roms.map Prod.fst ≠ [] := by
    simp only [ne_eq, List.map_eq_nil_iff]
    intro hc
    rw [hc] at hM
    simp at hM
  have hb0 : (0 : Int) ≤ s.selected_system := by
    rw [hsel]
    omega
  have hblt : s.selected_system < ((s.roms.map Prod.fst).length : Int) := by
    simp
    omega
  obtain ⟨x, hx⟩ := pyGet_some_of_bounds hb0 hblt
  have hl : nav_rom_list s =
      Except.ok ((dlookup s.filtered_roms x).getD []) := by
    unfold nav_rom_list
    rw [hv, if_pos hsys, hx]
  have hnlt : ¬(s.selected_system < (s.roms.length : Int) - 1) := by
    omega
  have hstep : handle_input env now 258 s =
      Except.ok (apply_selection_timestamp now s.selected_rom s.view_mode
        s.selected_system (update_filtered_roms
          { s with view_mode := ViewMode.favorites,
                   selected_rom := 0 })) := by
    unfold handle_input
    rw [hl]
    unfold handle_key
    simp [hm, hf, hv, hnlt, hsel]
  refine ⟨?_, ?_, ?_, ?_, ?_⟩ <;>
    · unfold handle_input_run
      rw [hstep]
      simp [hm, hf]

end Nobsrom

namespace Nobsrom

/-- From "systems" view at index `k`, `k` ArrowUp presses walk the index
down to 0 while staying in "systems" view. -/
theorem ring_up_count (env : SpawnEnv) (now : ℚ) (k : ℕ) :
    ∀ s : Session, s.mode = Mode.navigate → s.focus = Focus.systems →
      s.view_mode = ViewMode.systems → s.selected_system = (k : Int) →
      (k : Int) < (s.roms.length : Int) →
      ((handle_input_run env now 259)^[k] s).view_mode =
        ViewMode.systems ∧
      ((handle_input_run env now 259)^[k] s).selected_system = 0 ∧
      ((handle_input_run env now 259)^[k] s).mode = Mode.navigate ∧
      ((handle_input_run env now 259)^[k] s).focus = Focus.systems ∧
      ((handle_input_run env now 259)^[k] s).roms = s.roms := by
  induction k with
  | zero =>
      intro s hm hf hv hsel hklt
      simp only [Function.iterate_zero, id_eq]
      exact ⟨hv, by rw [hsel]; rfl, hm, hf, trivial⟩
  | succ k ih =>
      intro s hm hf hv hsel hklt
      have h0 : 0 < s.selected_system := by
        rw [hsel]
        exact_mod_cast Nat.succ_pos k
      have hlt : s.selected_system < (s.roms.length : Int) := by
        rw [hsel]
        exact hklt
      obtain ⟨hv', hsel', hm', hf', hr'⟩ :=
        ring_up_systems_dec env now s hm hf hv h0 hlt
      have hsel'' : (handle_input_run env now 259 s).selected_system =
          (k : Int) := by
        rw [hsel', hsel]
        push_cast
        ring
      have hklt' : (k : Int) <
          ((handle_input_run env now 259 s).roms.length : Int) := by
        rw [hr']
        push_cast at hklt
        omega
      obtain ⟨a1, a2, a3, a4, a5⟩ :=
        ih (handle_input_run env now 259 s) hm' hf' hv' hsel'' hklt'
      rw [Function.iterate_succ_apply]
      exact ⟨a1, a2, a3, a4, by rw [a5, hr']⟩

/-- From "systems" view at index `j`, `k` ArrowDown presses (staying
short of the last system) walk the index up to `j + k`. -/
theorem ring_down_count (env : SpawnEnv) (now : ℚ) (k : ℕ) :
    ∀ s : Session, s.mode = Mode.navigate → s.focus = Focus.systems →
      s.view_mode = ViewMode.systems → 0 ≤ s.selected_system →
      s.selected_system + (k : Int) < (s.roms.length : Int) →
      ((handle_input_run env now 258)^[k] s).view_mode =
        ViewMode.systems ∧
      ((handle_input_run env now 258)^[k] s).selected_system =
        s.selected_system + (k : Int) ∧
      ((handle_input_run env now 258)^[k] s).mode = Mode.navigate ∧
      ((handle_input_run env now 258)^[k] s).focus = Focus.systems ∧
      ((handle_input_run env now 258)^[k] s).roms = s.roms := by
  induction k with
  | zero =>
      intro s hm hf hv h0 hklt
      simp only [Function.iterate_zero, id_eq]
      exact ⟨hv, by push_cast; ring, hm, hf, trivial⟩
  | succ k ih =>
      intro s hm hf hv h0 hklt
      have hlt : s.selected_system < (s.roms.length : Int) - 1 := by
        push_cast at hklt
        omega
      obtain ⟨hv', hsel', hm', hf', hr'⟩ :=
        ring_down_systems_inc env now s hm hf hv h0 hlt
      have h0' : 0 ≤ (handle_input_run env now 258 s).selected_system := by
        rw [hsel']
        omega
      have hklt' : (handle_input_run env now 258 s).selected_system +
          (k : Int) <
          (((handle_input_run env now 258 s).roms.length : Int)) := by
        rw [hsel', hr']
        push_cast at hklt
        omega
      obtain ⟨a1, a2, a3, a4, a5⟩ :=
        ih (handle_input_run env now 258 s) hm' hf' hv' h0' hklt'
      rw [Function.iterate_succ_apply]
      refine ⟨a1, ?_, a3, a4, by rw [a5, hr']⟩
      rw [a2, hsel']
      push_cast
      ring

end Nobsrom

namespace Nobsrom

/-- C7: with M ≥ 1 systems, from navigate mode, system-column focus,
"systems" view at index 0, pressing ArrowUp M+2 times returns to exactly
the original `(view_mode, selected_system)` = (systems, 0), and pressing
ArrowDown M+2 times does likewise, following the fixed ring
Favorites → All → Systems(first) → ... → Systems(last) → Favorites. -/
theorem view_ring_closure (env : SpawnEnv) (now : ℚ) (s : Session)
    (hm : s.mode = Mode.navigate) (hf : s.focus = Focus.systems)
    (hv : s.view_mode = ViewMode.systems) (hsel : s.selected_system = 0)
    (hM : 1 ≤ s.roms.length) :
    (((handle_input_run env now 259)^[s.roms.length + 2] s).view_mode =
        ViewMode.systems ∧
      ((handle_input_run env now 259)^[s.roms.length + 2]
          s).selected_system = 0) ∧
    (((handle_input_run env now 258)^[s.roms.length + 2] s).view_mode =
        ViewMode.systems ∧
      ((handle_input_run env now 258)^[s.roms.length + 2]
          s).selected_system = 0) := by
  have hM0 : 0 < s.roms.length := hM
  constructor
  · -- ArrowUp: systems(0) → all → favorites → systems(M-1) → ... → systems(0)
    obtain ⟨b1, b2, b3, b4, b5⟩ :=
      ring_up_systems_zero env now s hm hf hv hsel hM0
    obtain ⟨c1, c2, c3, c4, c5⟩ :=
      ring_up_from_all env now _ b3 b4 b1 (by rw [b5]; exact hM0)
    obtain ⟨d1, d2, d3, d4, d5⟩ :=
      ring_up_from_favorites env now _ c3 c4 c1
    have hsel3 : (handle_input_run env now 259 (handle_input_run env now 259
        (handle_input_run env now 259 s))).selected_system =
        ((s.roms.length - 1 : ℕ) : Int) := by
      rw [d2, c5, b5]
      omega
    have hk3 : ((s.roms.length - 1 : ℕ) : Int) <
        (((handle_input_run env now 259 (handle_input_run env now 259
          (handle_input_run env now 259 s))).roms.length : Int)) := by
      rw [d5, c5, b5]
      omega
    obtain ⟨e1, e2, e3, e4, e5⟩ :=
      ring_up_count env now (s.roms.length - 1) _ d3 d4 d1 hsel3 hk3
    have hsplit : s.roms.length + 2 = (s.roms.length - 1) + 3 := by omega
    rw [hsplit, Function.iterate_add_apply]
    exact ⟨e1, e2⟩
  · -- ArrowDown: systems(0) → ... → systems(M-1) → favorites → all → systems(0)
    have hbound : s.selected_system + ((s.roms.length - 1 : ℕ) : Int) <
        (s.roms.length : Int) := by
      rw [hsel]
      omega
    obtain ⟨e1, e2, e3, e4, e5⟩ :=
      ring_down_count env now (s.roms.length - 1) s hm hf hv
        (by rw [hsel]) hbound
    obtain ⟨p1, p2, p3, p4, p5⟩ :=
      ring_down_systems_last env now _ e3 e4 e1 (by rw [e5]; exact hM0)
        (by rw [e2, hsel, e5]; omega)
    obtain ⟨q1, q2, q3, q4, q5⟩ :=
      ring_down_from_favorites env now _ p3 p4 p1
    obtain ⟨r1, r2, r3, r4, r5⟩ :=
      ring_down_from_all env now _ q3 q4 q1
        (by rw [q5, p5, e5]; exact hM0)
    have hsplit : s.roms.length + 2 = 3 + (s.roms.length - 1) := by omega
    rw [hsplit, Function.iterate_add_apply]
    exact ⟨r1, r2⟩

theorem view_ring_closure_witness :
    ringStartSession.mode = Mode.navigate ∧
    ringStartSession.focus = Focus.systems ∧
    ringStartSession.view_mode = ViewMode.systems ∧
    ringStartSession.selected_system = 0 ∧
    1 ≤ ringStartSession.roms.length ∧
    ((((handle_input_run spawnFileNotFound 0
          259)^[ringStartSession.roms.length + 2]
          ringStartSession).view_mode = ViewMode.systems ∧
      ((handle_input_run spawnFileNotFound 0
          259)^[ringStartSession.roms.length + 2]
          ringStartSession).selected_system = 0) ∧
     (((handle_input_run spawnFileNotFound 0
          258)^[ringStartSession.roms.length + 2]
          ringStartSession).view_mode = ViewMode.systems ∧
      ((handle_input_run spawnFileNotFound 0
          258)^[ringStartSession.roms.length + 2]
          ringStartSession).selected_system = 0)) :=
  ⟨by decide, by decide, by decide, by decide, by decide,
   view_ring_closure spawnFileNotFound 0 ringStartSession (by decide)
     (by decide) (by decide) (by decide) (by decide)⟩

end Nobsrom

namespace Nobsrom

/-- While a direction is held past its first event, no repeat fires as
long as every tick is still within the initial delay. -/
theorem hat_run_no_repeat (rest : List ℚ) : ∀ t : HatTimer, t.first ≠ 0 →
    (∀ u ∈ rest, u - t.first < 3/10) →
    hat_run (3/10) (1/25) t (rest.map (fun u => (u, true))) = 0 := by
  induction rest with
  | nil =>
      intro t h1 h2
      rfl
  | cons u us ih =>
      intro t h1 h2
      have hu : u - t.first < 3/10 := h2 u (by simp)
      have hcond : ¬((3 : ℚ)/10 ≤ u - t.first ∧ (1 : ℚ)/25 ≤ u - t.last) := by
        intro hc
        exact absurd hc.1 (not_le.mpr hu)
      have hstep : hat_step (3/10) (1/25) true u t = (t, false) := by
        unfold hat_step
        simp [h1, hcond]
        intro hc
        exact absurd hc (not_le.mpr hu)
      simp only [List.map_cons, hat_run, hstep]
      simpa using ih t h1 (fun v hv => h2 v (by simp [hv]))

/-- C9: the per-direction auto-repeat logic of the polling loop fires one
event on the neutral-to-active transition (setting both timestamps to
now); while held it fires exactly when `now - first ≥ initial_delay` and
`now - last ≥ repeat_interval`, updating `last`; hence a hold shorter
than 0.3 s fires exactly one event, and with a steady 0.02 s clock a hold
of just under 0.3 + 3 × 0.04 s (ticks at 1 + k/50 for k = 0..20) fires
exactly 4 events (1 initial + repeats at 1.30, 1.34, 1.38). -/
theorem auto_repeat_timing :
    (∀ (initial_delay repeat_interval now : ℚ),
        hat_step initial_delay repeat_interval true now
          { first := 0, last := 0 } =
          ({ first := now, last := now }, true)) ∧
    (∀ (initial_delay repeat_interval now : ℚ) (t : HatTimer),
        t.first ≠ 0 →
        hat_step initial_delay repeat_interval true now t =
          if initial_delay ≤ now - t.first ∧
              repeat_interval ≤ now - t.last then
            ({ t with last := now }, true)
          else (t, false)) ∧
    (∀ (t0 : ℚ) (rest : List ℚ), 0 < t0 →
        (∀ u ∈ rest, u - t0 < 3/10) →
        hat_fire_count (3/10) (1/25)
          ((t0, true) :: rest.map (fun u => (u, true))) = 1) ∧
    hat_fire_count (3/10) (1/25)
      ([1, 51/50, 52/50, 53/50, 54/50, 55/50, 56/50, 57/50, 58/50, 59/50,
        60/50, 61/50, 62/50, 63/50, 64/50, 65/50, 66/50, 67/50, 68/50,
        69/50, 70/50].map (fun q => (q, true))) = 4 := by
  refine ⟨?_, ?_, ?_, ?_⟩
  · intro iD rI now
    simp [hat_step]
  · intro iD rI now t h
    simp [hat_step, h]
  · intro t0 rest h0 hrest
    have hstep : hat_step (3/10) (1/25) true t0 { first := 0, last := 0 } =
        ({ first := t0, last := t0 }, true) := by
      simp [hat_step]
    simp only [hat_fire_count, hat_run, hstep]
    rw [hat_run_no_repeat rest { first := t0, last := t0 }
      (ne_of_gt h0) hrest]
    simp
  · norm_num [hat_fire_count, hat_run, hat_step]

theorem auto_repeat_timing_witness :
    (0 : ℚ) < 1 ∧
    (∀ u ∈ ([] : List ℚ), u - 1 < 3/10) ∧
    hat_fire_count (3/10) (1/25)
      ((1, true) :: ([] : List ℚ).map (fun u => (u, true))) = 1 :=
  ⟨one_pos, by simp,
   auto_repeat_timing.2.2.1 1 [] one_pos (by simp)⟩

end Nobsrom
